import Mathlib

/-!
Shallow embedding of `qutebrowser/browser/webengine/webview.py`.

The file defines the adapter layer between qutebrowser and QtWebEngine:
`WebEngineView.createWindow` (window-creation requests) and the
`WebEnginePage` callbacks (certificate errors, JavaScript dialogs,
console messages, navigation requests), together with the page state
machine carrying the `_is_shutting_down` flag.

External collaborators (Qt, the tab-management registry, the shared
policy module, the jinja templating module, the config module) are
modelled as explicit parameters or oracles: the embedding records which
collaborator calls each handler makes and what it returns, so the
theorems can speak about "the policy collaborator was (not) consulted",
"a tab was (not) opened", and so on.
-/

namespace Webview

/-! ### Qt enumeration values

Numeric values of the Qt enums used by the source, as defined by
`QWebEnginePage::WebWindowType`, `QWebEnginePage::NavigationType` and
`QWebEnginePage::JavaScriptConsoleMessageLevel`.  Window types and
navigation types are modelled as `Nat` so that out-of-range values
(the "invalid wintype" / unknown-level cases) are representable. -/

def WebBrowserWindow : Nat := 0

def WebBrowserTab : Nat := 1

def WebDialog : Nat := 2

def WebBrowserBackgroundTab : Nat := 3

def NavigationTypeLinkClicked : Nat := 0

def InfoMessageLevel : Nat := 0

def WarningMessageLevel : Nat := 1

def ErrorMessageLevel : Nat := 2

/-- `debug.qenum_key(QWebEnginePage, wintype)`: the symbolic name of the
enum value, falling back to a numeric rendering for unknown values. -/
def qenum_key (wintype : Nat) : String :=
  if wintype == WebBrowserWindow then "WebBrowserWindow"
  else if wintype == WebBrowserTab then "WebBrowserTab"
  else if wintype == WebDialog then "WebDialog"
  else if wintype == WebBrowserBackgroundTab then "WebBrowserBackgroundTab"
  else toString wintype

/-! ### Logging -/

inductive LogLevel where
  | debug
  | warning
  | error
deriving DecidableEq

structure LogMsg where
  level : LogLevel
  msg : String
deriving DecidableEq

/-! ### `WebEngineView.createWindow` -/

/-- The environment `createWindow` consults: the three
`qtutils.version_check` results appearing in the source, the value of
`os.environ.get("QUTE_QTBUG54419_PATCHED", "")` (empty string = unset,
Python truthiness = non-emptiness), and whether the running Qt has the
`WebBrowserBackgroundTab` attribute (`hasattr`, added in Qt 5.7). -/
structure CreateWindowEnv where
  version_check_5_6_2 : Bool
  version_check_5_7_0 : Bool
  version_check_5_7_1 : Bool
  qute_qtbug54419_patched : String
  has_WebBrowserBackgroundTab : Bool
deriving DecidableEq

/-- The `qtbug_54419_fixed` gate computed at the top of `createWindow`:
`(vercheck("5.6.2") and not vercheck("5.7.0")) or vercheck("5.7.1") or
os.environ.get("QUTE_QTBUG54419_PATCHED", "")`. -/
def qtbug_54419_fixed (env : CreateWindowEnv) : Bool :=
  (env.version_check_5_6_2 && !env.version_check_5_7_0) ||
    env.version_check_5_7_1 ||
    env.qute_qtbug54419_patched != ""

/-- Outcome of `createWindow`: `none` models `return None`;
`opened background` models `tabbed_browser.tabopen(background=background)._widget`
being called on the tab-management collaborator and its widget returned;
`valueError` models `raise ValueError(...)`. -/
inductive CreateWindowResult where
  | none
  | opened (background : Bool)
  | valueError (msg : String)
deriving DecidableEq

/-- `WebEngineView.createWindow`.  Mirrors the source control flow: the
initial debug log; the QTBUG-54419 gate returning `None`; the dispatch on
`wintype` computing `background` (warning on the unsupported
window/dialog kinds, `ValueError` on anything unknown); and finally the
single `tabopen(background=background)._widget` call. -/
def createWindow (env : CreateWindowEnv) (wintype : Nat) :
    CreateWindowResult × List LogMsg :=
  let debug_type := qenum_key wintype
  let log0 : List LogMsg :=
    [⟨LogLevel.debug, "createWindow with type " ++ debug_type⟩]
  if !(qtbug_54419_fixed env) then
    (CreateWindowResult.none,
      log0 ++ [⟨LogLevel.debug, "Ignoring createWindow because of QTBUG-54419"⟩])
  else if wintype == WebBrowserWindow || wintype == WebDialog then
    (CreateWindowResult.opened false,
      log0 ++ [⟨LogLevel.warning,
        debug_type ++ " requested, but we do not support that!"⟩])
  else if wintype == WebBrowserTab then
    (CreateWindowResult.opened false, log0)
  else if env.has_WebBrowserBackgroundTab &&
      wintype == WebBrowserBackgroundTab then
    (CreateWindowResult.opened true, log0)
  else
    (CreateWindowResult.valueError ("Invalid wintype " ++ debug_type), log0)

/-! ### URLs -/

/-- A `QUrl`, reduced to the three facets the source uses: validity
(`isValid`), the scheme, and everything after the scheme (authority,
path, query, fragment), which is what survives `QUrl.RemoveScheme`. -/
structure Url where
  valid : Bool
  scheme : String
  rest : String
deriving DecidableEq

def Url.isValid (u : Url) : Bool := u.valid

def Url.toDisplayString (u : Url) : String := u.scheme ++ "://" ++ u.rest

/-- `url.matches(other, QUrl.RemoveScheme)`: equality of the two URLs
once both schemes are removed. -/
def Url.matchesRemoveScheme (a b : Url) : Bool := a.rest == b.rest

/-! ### `WebEnginePage.certificateError` -/

/-- A `QWebEngineCertificateError` (after wrapping in
`certificateerror.CertificateErrorWrapper`): the failing URL, whether
the error kind is overridable, and its string rendering. -/
structure CertificateError where
  url : Url
  overridable : Bool
  errorString : String
deriving DecidableEq

def CertificateError.is_overridable (e : CertificateError) : Bool :=
  e.overridable

/-- The external jinja templating collaborator:
`jinja.render("error.html", title=..., url=..., error=..., icon=...)`,
modelled as the tuple of its arguments rendered into one string. -/
def jinja_render (template title url error icon : String) : String :=
  template ++ "|" ++ title ++ "|" ++ url ++ "|" ++ error ++ "|" ++ icon

/-- The `error_page` string `certificateError` builds before deciding. -/
def error_page_for (err : CertificateError) : String :=
  jinja_render "error.html"
    ("Error loading page: " ++ err.url.toDisplayString)
    err.url.toDisplayString err.errorString ""

/-- What `certificateError` did: the returned `ignore` decision, whether
`shared.ignore_certificate_errors` (the policy collaborator) was called,
whether the `certificate_error` signal was emitted, and `setHtml`:
`some page` when `self.setHtml(error_page)` ran, `none` when the page
content was left untouched. -/
structure CertErrorResult where
  ignore : Bool
  policyConsulted : Bool
  certificate_error_emitted : Bool
  setHtml : Option String
deriving DecidableEq

/-- `WebEnginePage.certificateError`.  `requestedUrl` is
`self.requestedUrl()`; `policyIgnore` is the oracle for what the policy
collaborator `shared.ignore_certificate_errors` would return when it is
consulted.  The source: emit the signal, build the error page, consult
the policy only for overridable errors (`ignore = False` and an error
log otherwise), then `setHtml(error_page)` exactly when
`not ignore and url.matches(self.requestedUrl(), QUrl.RemoveScheme)`. -/
def certificateError (requestedUrl : Url) (err : CertificateError)
    (policyIgnore : Bool) : CertErrorResult :=
  let error_page := error_page_for err
  let ignore := if err.is_overridable then policyIgnore else false
  { ignore := ignore
    policyConsulted := err.is_overridable
    certificate_error_emitted := true
    setHtml :=
      if !ignore && err.url.matchesRemoveScheme requestedUrl then
        some error_page
      else
        none }

/-! ### JavaScript dialogs -/

/-- Behaviour of the policy collaborator for a dialog call:
`shared.javascript_confirm` either returns a boolean answer or raises
`shared.CallSuper` (defer to the default engine behaviour). -/
inductive ConfirmPolicy where
  | answer (b : Bool)
  | callSuper
deriving DecidableEq

/-- Behaviour of `shared.javascript_alert`: it either completes or
raises `shared.CallSuper`. -/
inductive AlertPolicy where
  | done
  | callSuper
deriving DecidableEq

/-- What `javaScriptConfirm` did: the returned value, whether the policy
collaborator `shared.javascript_confirm` was invoked, and whether the
engine default `super().javaScriptConfirm` was called. -/
structure ConfirmResult where
  value : Bool
  policyConsulted : Bool
  superCalled : Bool
deriving DecidableEq

/-- `WebEnginePage.javaScriptConfirm`: return `False` once shutting
down; otherwise delegate to `shared.javascript_confirm`, falling back to
`super().javaScriptConfirm(url, js_msg)` (whose result is the oracle
`superConfirm`) when it raises `CallSuper`. -/
def javaScriptConfirm (is_shutting_down : Bool) (policy : ConfirmPolicy)
    (superConfirm : Bool) : ConfirmResult :=
  if is_shutting_down then
    ⟨false, false, false⟩
  else
    match policy with
    | ConfirmPolicy.answer b => ⟨b, true, false⟩
    | ConfirmPolicy.callSuper => ⟨superConfirm, true, true⟩

/-- What `javaScriptAlert` did: whether `shared.javascript_alert` was
invoked and whether `super().javaScriptAlert` was called. -/
structure AlertResult where
  policyConsulted : Bool
  superCalled : Bool
deriving DecidableEq

/-- `WebEnginePage.javaScriptAlert`: do nothing once shutting down;
otherwise delegate to `shared.javascript_alert`, falling back to
`super().javaScriptAlert(url, js_msg)` when it raises `CallSuper`. -/
def javaScriptAlert (is_shutting_down : Bool) (policy : AlertPolicy) :
    AlertResult :=
  if is_shutting_down then
    ⟨false, false⟩
  else
    match policy with
    | AlertPolicy.done => ⟨true, false⟩
    | AlertPolicy.callSuper => ⟨true, true⟩

/-! ### `WebEnginePage.javaScriptConsoleMessage` -/

/-- The three level-specific log sinks of the `level_to_logger` dict. -/
inductive JsLogger where
  | info
  | warning
  | error
deriving DecidableEq

/-- The `level_to_logger` dictionary, as a partial map: `none` models a
key that is absent from the dict (so that an unguarded `[...]` lookup
raises `KeyError`). -/
def level_to_logger (level : Nat) : Option JsLogger :=
  if level == InfoMessageLevel then some JsLogger.info
  else if level == WarningMessageLevel then some JsLogger.warning
  else if level == ErrorMessageLevel then some JsLogger.error
  else none

/-- Outcome of `javaScriptConsoleMessage`: a normal return (with the log
call made, if any) or an uncaught `KeyError` from the dict lookup. -/
inductive ConsoleResult where
  | returned (logged : Option (JsLogger × String))
  | keyError (level : Nat)
deriving DecidableEq

/-- `WebEnginePage.javaScriptConsoleMessage`.  `setting` is the config
value `config.get("general", "log-javascript-console")`: return at once
when it is `"none"`; otherwise build the log string and do the unguarded
`level_to_logger[level]` lookup, then call the logger. -/
def javaScriptConsoleMessage (setting : String) (level : Nat)
    (msg : String) (line : Nat) (source : String) : ConsoleResult :=
  if setting == "none" then
    ConsoleResult.returned none
  else
    let logstring := "[" ++ source ++ ":" ++ toString line ++ "] " ++ msg
    match level_to_logger level with
    | some logger => ConsoleResult.returned (some (logger, logstring))
    | Option.none => ConsoleResult.keyError level

/-! ### `WebEnginePage.acceptNavigationRequest` -/

/-- `usertypes.ClickTarget`: where a clicked link should be opened. -/
inductive ClickTarget where
  | normal
  | tab
  | tab_bg
  | window
deriving DecidableEq

/-- What `acceptNavigationRequest` did: the returned accept/reject
decision and whether the `link_clicked` signal was emitted. -/
structure NavigationResult where
  accepted : Bool
  link_clicked_emitted : Bool
deriving DecidableEq

/-- `WebEnginePage.acceptNavigationRequest`.  `target` is
`self._tabdata.combined_target()`.  Non-link-click types return `True`
at once; a link click emits `link_clicked` and returns
`url.isValid() and target == usertypes.ClickTarget.normal`. -/
def acceptNavigationRequest (target : ClickTarget) (url : Url)
    (typ : Nat) (is_main_frame : Bool) : NavigationResult :=
  if typ != NavigationTypeLinkClicked then
    ⟨true, false⟩
  else
    ⟨url.isValid && target == ClickTarget.normal, true⟩

/-! ### The page state machine

`WebEnginePage.__init__` sets `self._is_shutting_down = False`; the only
assignment to the flag anywhere in the source is
`self._is_shutting_down = True` inside `WebEnginePage.shutdown`
(reached directly or through `WebEngineView.shutdown`, which calls
`self.page().shutdown()`).  Every public operation of the View and the
Page is an `PageOp`; `pageStep` gives the flag after running it. -/

structure PageState where
  is_shutting_down : Bool
deriving DecidableEq

/-- `WebEnginePage.__init__`: the flag starts out `False`. -/
def PageState.init : PageState := ⟨false⟩

/-- One invocation of a View or Page operation, with the arguments and
collaborator oracles that operation needs. -/
inductive PageOp where
  | shutdown
  | certificateErrorOp (requestedUrl : Url) (err : CertificateError)
      (policyIgnore : Bool)
  | javaScriptConfirmOp (policy : ConfirmPolicy) (superConfirm : Bool)
  | javaScriptAlertOp (policy : AlertPolicy)
  | javaScriptConsoleMessageOp (setting : String) (level : Nat)
      (msg : String) (line : Nat) (source : String)
  | acceptNavigationRequestOp (target : ClickTarget) (url : Url)
      (typ : Nat) (is_main_frame : Bool)
  | viewShutdown
  | viewCreateWindow (env : CreateWindowEnv) (wintype : Nat)

/-- Effect of each operation on `_is_shutting_down`: `shutdown` (and
`WebEngineView.shutdown`, which forwards to it) assigns `True`; no other
method of either class assigns the flag. -/
def pageStep (s : PageState) (op : PageOp) : PageState :=
  match op with
  | PageOp.shutdown => ⟨true⟩
  | PageOp.viewShutdown => ⟨true⟩
  | PageOp.certificateErrorOp _ _ _ => s
  | PageOp.javaScriptConfirmOp _ _ => s
  | PageOp.javaScriptAlertOp _ => s
  | PageOp.javaScriptConsoleMessageOp _ _ _ _ _ => s
  | PageOp.acceptNavigationRequestOp _ _ _ _ => s
  | PageOp.viewCreateWindow _ _ => s

/-! ### Claims -/

/-- Claim C1, counterexample.  The claim states that for an unsupported
window kind (complete browser window / undecorated web dialog), with the
QTBUG-54419 gate passing, `createWindow` rejects the request under a
default-deny policy: no tab is opened and no view is returned.  On the
code this is false: with the gate passing (Qt 5.6.2, not 5.7.0) and
`wintype = WebBrowserWindow`, `createWindow` falls through after the
warning and opens a foreground tab via the tab-management collaborator,
returning its widget. -/
theorem claim_C1_counterexample :
    qtbug_54419_fixed ⟨true, false, false, "", true⟩ = true ∧
    (createWindow ⟨true, false, false, "", true⟩ WebBrowserWindow).1 =
      CreateWindowResult.opened false :=
  ⟨rfl, rfl⟩

/-- Claim C1, amended: for every window-creation request whose kind is
unsupported (a complete web browser window or an undecorated web
dialog), given the version workaround gate passes, `createWindow` logs a
warning about the unsupported kind and then handles the request exactly
like a foreground-tab request: it opens a non-background tab via the
tab-management collaborator and returns its view object. -/
theorem claim_C1_thm (env : CreateWindowEnv) (wintype : Nat)
    (hg : qtbug_54419_fixed env = true)
    (hw : wintype = WebBrowserWindow ∨ wintype = WebDialog) :
    (createWindow env wintype).1 = CreateWindowResult.opened false ∧
    LogMsg.mk LogLevel.warning
        (qenum_key wintype ++ " requested, but we do not support that!") ∈
      (createWindow env wintype).2 := by
  rcases hw with h | h <;> subst h <;>
    simp [createWindow, hg, qenum_key, WebBrowserWindow, WebBrowserTab,
      WebDialog, WebBrowserBackgroundTab]

/-- Claim C1, witness for the amended theorem at a concrete input. -/
theorem claim_C1_witness :
    (createWindow ⟨true, false, false, "", true⟩ WebDialog).1 =
      CreateWindowResult.opened false ∧
    LogMsg.mk LogLevel.warning
        (qenum_key WebDialog ++ " requested, but we do not support that!") ∈
      (createWindow ⟨true, false, false, "", true⟩ WebDialog).2 :=
  claim_C1_thm ⟨true, false, false, "", true⟩ WebDialog rfl (Or.inr rfl)

/-- Claim C2: for every non-overridable certificate error, the ignore
decision is false and `certificateError` never consults the policy
collaborator (`shared.ignore_certificate_errors`). -/
theorem claim_C2_thm (requestedUrl : Url) (err : CertificateError)
    (policyIgnore : Bool) (h : err.is_overridable = false) :
    (certificateError requestedUrl err policyIgnore).ignore = false ∧
    (certificateError requestedUrl err policyIgnore).policyConsulted = false := by
  simp [certificateError, h]

/-- Claim C2, witness at a concrete non-overridable error. -/
theorem claim_C2_witness :
    (certificateError ⟨true, "https", "example.com"⟩
        ⟨⟨true, "https", "example.com"⟩, false, "certificate error"⟩
        true).ignore = false ∧
    (certificateError ⟨true, "https", "example.com"⟩
        ⟨⟨true, "https", "example.com"⟩, false, "certificate error"⟩
        true).policyConsulted = false :=
  claim_C2_thm ⟨true, "https", "example.com"⟩
    ⟨⟨true, "https", "example.com"⟩, false, "certificate error"⟩ true rfl

/-- Claim C3: for every JavaScript confirm or alert call made after
shutdown has been invoked (the shutting-down flag is true), the default
value is produced (confirm returns false, alert does nothing: no call to
the engine default either) without invoking the policy collaborator. -/
theorem claim_C3_thm (policy : ConfirmPolicy) (superConfirm : Bool)
    (apolicy : AlertPolicy) :
    javaScriptConfirm true policy superConfirm = ⟨false, false, false⟩ ∧
    javaScriptAlert true apolicy = ⟨false, false⟩ :=
  ⟨rfl, rfl⟩

/-- Claim C4: every link-click navigation request emits the
`link_clicked` signal, is accepted iff the URL is valid and the click
target is `normal`, and in particular is rejected whenever the URL is
invalid, regardless of the target. -/
theorem claim_C4_thm (target : ClickTarget) (url : Url)
    (is_main_frame : Bool) :
    (acceptNavigationRequest target url NavigationTypeLinkClicked
        is_main_frame).link_clicked_emitted = true ∧
    ((acceptNavigationRequest target url NavigationTypeLinkClicked
        is_main_frame).accepted = true ↔
      url.isValid = true ∧ target = ClickTarget.normal) ∧
    (url.isValid = false →
      (acceptNavigationRequest target url NavigationTypeLinkClicked
        is_main_frame).accepted = false) := by
  refine ⟨rfl, ?_, ?_⟩
  · simp [acceptNavigationRequest, NavigationTypeLinkClicked]
  · intro h
    simp [acceptNavigationRequest, NavigationTypeLinkClicked, h]

/-- Claim C4, witness: a link click on an invalid URL is rejected even
with target `normal`. -/
theorem claim_C4_witness :
    (acceptNavigationRequest ClickTarget.normal ⟨false, "http", "x"⟩
      NavigationTypeLinkClicked true).accepted = false :=
  (claim_C4_thm ClickTarget.normal ⟨false, "http", "x"⟩ true).2.2 rfl

/-- Claim C5: every navigation request whose type is not link-click is
accepted, for every URL, target policy, and main-frame flag. -/
theorem claim_C5_thm (target : ClickTarget) (url : Url) (typ : Nat)
    (is_main_frame : Bool) (h : typ ≠ NavigationTypeLinkClicked) :
    (acceptNavigationRequest target url typ is_main_frame).accepted = true := by
  have hb : (typ != NavigationTypeLinkClicked) = true := by simpa using h
  simp [acceptNavigationRequest, hb]

/-- Claim C5, witness at a concrete non-link-click type (typed = 1). -/
theorem claim_C5_witness :
    (acceptNavigationRequest ClickTarget.tab ⟨false, "http", "x"⟩ 1
      false).accepted = true :=
  claim_C5_thm ClickTarget.tab ⟨false, "http", "x"⟩ 1 false (by decide)

/-- Claim C6: the templated error page is set as the page HTML iff the
error was not ignored and the failing URL matches the originally
requested URL with the scheme removed; in every other case
`certificateError` leaves the page content unchanged. -/
theorem claim_C6_thm (requestedUrl : Url) (err : CertificateError)
    (policyIgnore : Bool) :
    (certificateError requestedUrl err policyIgnore).setHtml =
      (if (certificateError requestedUrl err policyIgnore).ignore = false ∧
          err.url.matchesRemoveScheme requestedUrl = true
        then some (error_page_for err) else none) := by
  rcases err with ⟨u, ov, es⟩
  rcases ov <;> rcases policyIgnore <;>
    rcases hm : u.matchesRemoveScheme requestedUrl <;>
      simp [certificateError, CertificateError.is_overridable, hm]

/-- Claim C7, counterexample.  The claim states that an invalid
window-creation kind always raises rather than returning a view or
none.  On the code this is false when the QTBUG-54419 gate is inactive:
the gate check runs first and `createWindow` returns `None` for the
invalid kind 7. -/
theorem claim_C7_counterexample :
    ((7 : Nat) ≠ WebBrowserWindow ∧ (7 : Nat) ≠ WebBrowserTab ∧
      (7 : Nat) ≠ WebDialog ∧ (7 : Nat) ≠ WebBrowserBackgroundTab) ∧
    qtbug_54419_fixed ⟨false, false, false, "", true⟩ = false ∧
    (createWindow ⟨false, false, false, "", true⟩ 7).1 =
      CreateWindowResult.none :=
  ⟨by decide, rfl, rfl⟩

/-- Claim C7, amended: given the version workaround gate passes, a
window-creation request with an invalid kind (not a browser window, web
dialog, foreground tab, or background tab) raises a `ValueError` rather
than returning a view or none. -/
theorem claim_C7_thm (env : CreateWindowEnv) (wintype : Nat)
    (hg : qtbug_54419_fixed env = true)
    (h0 : wintype ≠ WebBrowserWindow) (h1 : wintype ≠ WebBrowserTab)
    (h2 : wintype ≠ WebDialog) (h3 : wintype ≠ WebBrowserBackgroundTab) :
    (createWindow env wintype).1 =
      CreateWindowResult.valueError ("Invalid wintype " ++ qenum_key wintype) := by
  have e0 : (wintype == WebBrowserWindow) = false := by simpa using h0
  have e1 : (wintype == WebBrowserTab) = false := by simpa using h1
  have e2 : (wintype == WebDialog) = false := by simpa using h2
  have e3 : (wintype == WebBrowserBackgroundTab) = false := by simpa using h3
  simp [createWindow, hg, e0, e1, e2, e3]

/-- Claim C7, witness for the amended theorem: kind 7 with the gate
passing raises. -/
theorem claim_C7_witness :
    (createWindow ⟨true, false, false, "", true⟩ 7).1 =
      CreateWindowResult.valueError ("Invalid wintype " ++ qenum_key 7) :=
  claim_C7_thm ⟨true, false, false, "", true⟩ 7 rfl
    (by decide) (by decide) (by decide) (by decide)

/-- Claim C8: the shutting-down flag is false at construction,
`shutdown` sets it to true, and no operation of the View or the Page
ever resets it to false (the transition is monotonic false to true). -/
theorem claim_C8_thm :
    PageState.init.is_shutting_down = false ∧
    (∀ s : PageState, (pageStep s PageOp.shutdown).is_shutting_down = true) ∧
    (∀ (s : PageState) (op : PageOp), s.is_shutting_down = true →
      (pageStep s op).is_shutting_down = true) := by
  refine ⟨rfl, fun s => rfl, fun s op h => ?_⟩
  cases op <;> simp [pageStep, h]

/-- Claim C8, witness: the flag stays true across a concrete
post-shutdown operation. -/
theorem claim_C8_witness :
    PageState.init.is_shutting_down = false ∧
    (pageStep ⟨true⟩ (PageOp.javaScriptAlertOp AlertPolicy.done)).is_shutting_down
      = true :=
  ⟨claim_C8_thm.1,
    claim_C8_thm.2.2 ⟨true⟩ (PageOp.javaScriptAlertOp AlertPolicy.done) rfl⟩

/-- Claim C9: when the version workaround gate is inactive (neither
fixed Qt version range holds and the environment override is unset),
`createWindow` returns none, for every window kind, without consulting
the tab-management collaborator (no `opened` outcome). -/
theorem claim_C9_thm (env : CreateWindowEnv) (wintype : Nat)
    (h1 : env.version_check_5_6_2 = false ∨ env.version_check_5_7_0 = true)
    (h2 : env.version_check_5_7_1 = false)
    (h3 : env.qute_qtbug54419_patched = "") :
    (createWindow env wintype).1 = CreateWindowResult.none := by
  have hg : qtbug_54419_fixed env = false := by
    rcases h1 with h | h <;> simp [qtbug_54419_fixed, h, h2, h3]
  simp [createWindow, hg]

/-- Claim C9, witness at a concrete inactive-gate environment. -/
theorem claim_C9_witness :
    (createWindow ⟨false, true, false, "", true⟩ WebBrowserTab).1 =
      CreateWindowResult.none :=
  claim_C9_thm ⟨false, true, false, "", true⟩ WebBrowserTab (Or.inl rfl) rfl rfl

/-- Claim C10: the console-message handler is total only for the three
known levels; for any level outside info/warning/error, when the
verbosity setting is not "none", the unguarded dictionary lookup raises
a `KeyError` instead of logging or returning normally. -/
theorem claim_C10_thm (setting : String) (level : Nat) (msg : String)
    (line : Nat) (source : String) (hs : setting ≠ "none")
    (h0 : level ≠ InfoMessageLevel) (h1 : level ≠ WarningMessageLevel)
    (h2 : level ≠ ErrorMessageLevel) :
    javaScriptConsoleMessage setting level msg line source =
      ConsoleResult.keyError level := by
  have es : (setting == "none") = false := by simpa using hs
  have e0 : (level == InfoMessageLevel) = false := by simpa using h0
  have e1 : (level == WarningMessageLevel) = false := by simpa using h1
  have e2 : (level == ErrorMessageLevel) = false := by simpa using h2
  simp [javaScriptConsoleMessage, level_to_logger, es, e0, e1, e2]

/-- Claim C10, witness: level 4 with verbosity "debug" raises. -/
theorem claim_C10_witness :
    javaScriptConsoleMessage "debug" 4 "m" 1 "page.js" =
      ConsoleResult.keyError 4 :=
  claim_C10_thm "debug" 4 "m" 1 "page.js" (by decide)
    (by decide) (by decide) (by decide)

end Webview
